import Mathlib

/-
Verification of the movie-catalog service (FastAPI + SQLAlchemy):
a shallow embedding of src/schemas/movies.py and src/routes/movies.py.

Modelling conventions:
- Calendar dates are integers counting days; the current date is an explicit
  parameter named today wherever the code calls date.today().
- Python floats (score, budget, revenue) are modelled as rationals; every value
  the validation rules compare against (0, 100) is exact in both.
- The relational store is a record of lists of rows plus per-table autoincrement
  counters; a transactional request is a pure function from store to
  outcome-and-store.
- FastAPI parses and validates the request body against the pydantic schema
  before the route handler body runs; the pipelines below compose the schema
  parse with the handler in that order.
- A PATCH body distinguishes an absent field from an explicit null
  (model_dump with exclude_unset keeps explicit nulls), so update payload
  fields are Option (Option _): none is absent, some none is explicit null,
  some (some v) is a value.
-/

namespace MovieCatalog

/-- Movie status enumeration from schemas/movies.py (class MovieStatus). -/
inductive MovieStatus where
  | released
  | post_production
  | in_production
deriving DecidableEq

/-- String value of each MovieStatus member. -/
def MovieStatus.value : MovieStatus → String
  | .released => "Released"
  | .post_production => "Post Production"
  | .in_production => "In Production"

/-- Parsing a string into a MovieStatus member, as pydantic does for the
status field of the create/update schemas. -/
def MovieStatus.ofValue : String → Option MovieStatus
  | "Released" => some .released
  | "Post Production" => some .post_production
  | "In Production" => some .in_production
  | _ => none

/-- Modelled from the spec: database.models.MovieStatusEnum is not under src/
(only routes/movies.py imports it); per the spec its members are exactly
Released, Post Production and In Production — the same values as the schema
enum — so we model it as the same type. -/
abbrev MovieStatusEnum := MovieStatus

/-- The list of allowed status values the update route computes from
MovieStatusEnum (routes/movies.py line 230). -/
def allowed_statuses : List String :=
  ["Released", "Post Production", "In Production"]

/-- A reference-entity row identified by a surrogate id and a natural-key name;
GenreModel, ActorModel and LanguageModel all have this shape. -/
structure NamedRow where
  id : Nat
  name : String
deriving DecidableEq

abbrev GenreModel := NamedRow
abbrev ActorModel := NamedRow
abbrev LanguageModel := NamedRow

/-- A country row: surrogate id, code (natural key) and nullable name. -/
structure CountryModel where
  id : Nat
  code : String
  name : Option String
deriving DecidableEq

/-- A movie row, with its many-to-many association rows represented as the
lists of related reference-entity ids. -/
structure MovieModel where
  id : Nat
  name : String
  date : Int
  score : ℚ
  overview : Option String
  status : MovieStatusEnum
  budget : ℚ
  revenue : ℚ
  country_id : Option Nat
  genre_ids : List Nat
  actor_ids : List Nat
  language_ids : List Nat
deriving DecidableEq

/-- The relational store: one list of rows per table plus each table's
autoincrement counter. -/
structure Store where
  movies : List MovieModel := []
  countries : List CountryModel := []
  genres : List GenreModel := []
  actors : List ActorModel := []
  languages : List LanguageModel := []
  next_movie_id : Nat := 1
  next_country_id : Nat := 1
  next_genre_id : Nat := 1
  next_actor_id : Nat := 1
  next_language_id : Nat := 1
deriving DecidableEq

/-- Number of rows of a named table carrying a given name. -/
def countName (rows : List NamedRow) (name : String) : Nat :=
  (rows.filter (fun r => r.name == name)).length

/-- The get_or_create helper defined inside create_movie (routes/movies.py):
look up a row by natural key; if found return it, otherwise insert a new row
(flushing assigns the next id) and return that. Returns the row together with
the updated table and counter. -/
def get_or_create (rows : List NamedRow) (nextId : Nat) (name : String) :
    NamedRow × List NamedRow × Nat :=
  match rows.find? (fun r => r.name == name) with
  | some r => (r, rows, nextId)
  | none => (⟨nextId, name⟩, rows ++ [⟨nextId, name⟩], nextId + 1)

/-- The list comprehensions in create_movie: resolve each name in order via
get_or_create, threading the evolving table through the calls. -/
def resolveAll (rows : List NamedRow) (nextId : Nat) (names : List String) :
    List NamedRow × List NamedRow × Nat :=
  match names with
  | [] => ([], rows, nextId)
  | n :: rest =>
    let step := get_or_create rows nextId n
    let further := resolveAll step.2.1 step.2.2 rest
    (step.1 :: further.1, further.2.1, further.2.2)

/-- The inline country lookup-or-insert in create_movie (routes/movies.py
lines 135-142): find a country by code, otherwise insert one with null name.
Returns its id with the updated table and counter. -/
def resolveCountry (s : Store) (code : String) : Nat × List CountryModel × Nat :=
  match s.countries.find? (fun c => c.code == code) with
  | some c => (c.id, s.countries, s.next_country_id)
  | none =>
    (s.next_country_id, s.countries ++ [⟨s.next_country_id, code, none⟩],
     s.next_country_id + 1)

/-- Shared date validator from schemas/movies.py (validate_movie_date):
an absent date passes; a present date passes only when it does not exceed
today plus 365 days. -/
def validate_movie_date (today : Int) (v : Option Int) : Bool :=
  match v with
  | none => true
  | some d => decide (d ≤ today + 365)

/-- Python str.upper, character by character over the string's character
list. -/
def pyUpper (v : String) : String :=
  String.mk (v.data.map Char.toUpper)

/-- The country field validator of MovieCreateSchema: between two and three
characters, all alphabetic. -/
def countryCodeOk (v : String) : Bool :=
  decide (2 ≤ v.length) && decide (v.length ≤ 3) && v.data.all Char.isAlpha

/-- A raw create request body, before pydantic validation. The status field is
the raw string; numeric fields are already numbers (JSON-level typing is not
modelled). -/
structure MovieCreatePayload where
  name : String
  date : Int
  score : ℚ
  overview : String
  status : String
  budget : ℚ
  revenue : ℚ
  country : String
  genres : List String
  actors : List String
  languages : List String
deriving DecidableEq

/-- A create body accepted by MovieCreateSchema: status is an enum member and
the country code has been normalized to upper case. -/
structure ValidatedCreate where
  name : String
  date : Int
  score : ℚ
  overview : String
  status : MovieStatus
  budget : ℚ
  revenue : ℚ
  country : String
  genres : List String
  actors : List String
  languages : List String
deriving DecidableEq

/-- Pydantic validation of a create body against MovieCreateSchema
(schemas/movies.py lines 86-106): name at most 255 characters, date at most
today plus 365 days, score in [0, 100], budget and revenue nonnegative,
country a 2-3 letter alphabetic code (normalized to upper case), status one of
the enumeration values. FastAPI runs this before the route handler body. -/
def MovieCreateSchema.parse (today : Int) (p : MovieCreatePayload) :
    Option ValidatedCreate :=
  match MovieStatus.ofValue p.status with
  | none => none
  | some st =>
    if decide (p.name.length ≤ 255) && validate_movie_date today (some p.date)
        && decide (0 ≤ p.score) && decide (p.score ≤ 100)
        && decide (0 ≤ p.budget) && decide (0 ≤ p.revenue)
        && countryCodeOk p.country then
      some { name := p.name, date := p.date, score := p.score,
             overview := p.overview, status := st, budget := p.budget,
             revenue := p.revenue, country := pyUpper p.country,
             genres := p.genres, actors := p.actors, languages := p.languages }
    else none

/-- Outcome of a create request. -/
inductive CreateOutcome where
  | validationFailure
  | conflict
  | internalError
  | created (movie : MovieModel)
deriving DecidableEq

/-- True exactly on a created outcome. -/
def CreateOutcome.isCreated : CreateOutcome → Bool
  | .created _ => true
  | _ => false

/-- The insertion phase of create_movie, after the duplicate check has passed:
resolve the country, then genres, actors and languages in order via
get_or_create, build the movie row with the next movie id and the resolved
relationship ids, and append it to the movies table. -/
def create_insert (s : Store) (v : ValidatedCreate) : MovieModel × Store :=
  let co := resolveCountry s v.country
  let g := resolveAll s.genres s.next_genre_id v.genres
  let a := resolveAll s.actors s.next_actor_id v.actors
  let l := resolveAll s.languages s.next_language_id v.languages
  let movie : MovieModel :=
    { id := s.next_movie_id, name := v.name, date := v.date, score := v.score,
      overview := some v.overview, status := v.status, budget := v.budget,
      revenue := v.revenue, country_id := some co.1,
      genre_ids := g.1.map (fun r => r.id),
      actor_ids := a.1.map (fun r => r.id),
      language_ids := l.1.map (fun r => r.id) }
  (movie,
   { movies := s.movies ++ [movie], countries := co.2.1, genres := g.2.1,
     actors := a.2.1, languages := l.2.1,
     next_movie_id := s.next_movie_id + 1, next_country_id := co.2.2,
     next_genre_id := g.2.2, next_actor_id := a.2.2, next_language_id := l.2.2 })

/-- The create_movie handler body (routes/movies.py lines 107-188), given an
already-validated body: check that no existing movie shares (name, date) —
conflict if exactly one does, a storage error if several do (scalar_one_or_none
raises) — then insert, commit, and re-query the new movie by id with
relationships populated (internal error if the reload finds nothing). -/
def create_movie (s : Store) (v : ValidatedCreate) : CreateOutcome × Store :=
  if (s.movies.filter (fun m => m.name == v.name && m.date == v.date)).length = 1 then
    (.conflict, s)
  else if 2 ≤ (s.movies.filter (fun m => m.name == v.name && m.date == v.date)).length then
    (.internalError, s)
  else
    match (create_insert s v).2.movies.find?
        (fun m => m.id == (create_insert s v).1.id) with
    | some reloaded => (.created reloaded, (create_insert s v).2)
    | none => (.internalError, (create_insert s v).2)

/-- The full create request pipeline: pydantic validation of the body first
(FastAPI request parsing), then the handler. -/
def createPipeline (today : Int) (s : Store) (p : MovieCreatePayload) :
    CreateOutcome × Store :=
  match MovieCreateSchema.parse today p with
  | none => (.validationFailure, s)
  | some v => create_movie s v

/-- A raw update (PATCH) request body. Each field is Option (Option _):
none is absent, some none is explicit null (accepted by the Optional pydantic
fields and kept by model_dump with exclude_unset), some (some v) is a value.
The status field is the raw string. -/
structure MovieUpdatePayload where
  name : Option (Option String) := none
  date : Option (Option Int) := none
  score : Option (Option ℚ) := none
  overview : Option (Option String) := none
  status : Option (Option String) := none
  budget : Option (Option ℚ) := none
  revenue : Option (Option ℚ) := none
deriving DecidableEq

/-- An update body accepted by MovieUpdateSchema: the status string, when
present and non-null, has been parsed into an enum member. -/
structure MovieUpdateData where
  name : Option (Option String) := none
  date : Option (Option Int) := none
  score : Option (Option ℚ) := none
  overview : Option (Option String) := none
  status : Option (Option MovieStatus) := none
  budget : Option (Option ℚ) := none
  revenue : Option (Option ℚ) := none
deriving DecidableEq

/-- A per-field constraint check that only applies to a present, non-null
value, as pydantic constraints on Optional fields do. -/
def fieldOk (check : α → Bool) : Option (Option α) → Bool
  | some (some v) => check v
  | _ => true

/-- Pydantic validation of an update body against MovieUpdateSchema
(schemas/movies.py lines 109-120): every field optional and nullable; when a
value is present, name at most 255 characters, date at most today plus 365
days, score in [0, 100], budget and revenue nonnegative, status an
enumeration value. -/
def MovieUpdateSchema.parse (today : Int) (p : MovieUpdatePayload) :
    Option MovieUpdateData :=
  match p.status with
  | some (some sv) =>
    match MovieStatus.ofValue sv with
    | none => none
    | some st =>
      if fieldOk (fun n : String => decide (n.length ≤ 255)) p.name
          && fieldOk (fun d : Int => validate_movie_date today (some d)) p.date
          && fieldOk (fun x : ℚ => decide (0 ≤ x) && decide (x ≤ 100)) p.score
          && fieldOk (fun x : ℚ => decide (0 ≤ x)) p.budget
          && fieldOk (fun x : ℚ => decide (0 ≤ x)) p.revenue then
        some { name := p.name, date := p.date, score := p.score,
               overview := p.overview, status := some (some st),
               budget := p.budget, revenue := p.revenue }
      else none
  | other =>
    if fieldOk (fun n : String => decide (n.length ≤ 255)) p.name
        && fieldOk (fun d : Int => validate_movie_date today (some d)) p.date
        && fieldOk (fun x : ℚ => decide (0 ≤ x) && decide (x ≤ 100)) p.score
        && fieldOk (fun x : ℚ => decide (0 ≤ x)) p.budget
        && fieldOk (fun x : ℚ => decide (0 ≤ x)) p.revenue then
      some { name := p.name, date := p.date, score := p.score,
             overview := p.overview,
             status := match other with
                       | some _ => some none
                       | none => none,
             budget := p.budget, revenue := p.revenue }
    else none

/-- Outcome of an update request. A typeError outcome models a Python
TypeError raised by comparing None against a number, a date or by len(None)
in the route body (an unhandled 500). -/
inductive UpdateOutcome where
  | validationFailure
  | invalidInput
  | notFound
  | typeError
  | success
deriving DecidableEq

/-- True when model_dump with exclude_unset would be empty: every field
absent (explicit nulls count as set). -/
def MovieUpdateData.isEmpty (u : MovieUpdateData) : Bool :=
  u.name.isNone && u.date.isNone && u.score.isNone && u.overview.isNone
    && u.status.isNone && u.budget.isNone && u.revenue.isNone

/-- The update route's score branch (routes/movies.py lines 217-219): absent
passes; an explicit null makes the comparison None < 0 raise TypeError; a
value outside [0, 100] is rejected. -/
def scoreCheck : Option (Option ℚ) → Option UpdateOutcome
  | none => none
  | some none => some .typeError
  | some (some v) => if v < 0 ∨ 100 < v then some .invalidInput else none

/-- The update route's budget branch (lines 221-223). -/
def budgetCheck : Option (Option ℚ) → Option UpdateOutcome
  | none => none
  | some none => some .typeError
  | some (some v) => if v < 0 then some .invalidInput else none

/-- The update route's revenue branch (lines 225-227). -/
def revenueCheck : Option (Option ℚ) → Option UpdateOutcome
  | none => none
  | some none => some .typeError
  | some (some v) => if v < 0 then some .invalidInput else none

/-- The update route's status branch (lines 229-237): an enum member is kept
when its value occurs among the MovieStatusEnum values; an explicit null gives
status_value None, which is not in the allowed list, so the branch fires. -/
def statusCheck : Option (Option MovieStatus) → Option UpdateOutcome
  | none => none
  | some none => some .invalidInput
  | some (some m) =>
    if m.value ∈ allowed_statuses then none else some .invalidInput

/-- The update route's date branch (lines 239-241): absent passes; an explicit
null makes the comparison None > date raise TypeError; a value later than
today plus 365 days is rejected. -/
def dateCheck (today : Int) : Option (Option Int) → Option UpdateOutcome
  | none => none
  | some none => some .typeError
  | some (some d) => if today + 365 < d then some .invalidInput else none

/-- The update route's name branch (lines 243-245): absent passes; an explicit
null makes len(None) raise TypeError; a name longer than 255 characters is
rejected. -/
def nameCheck : Option (Option String) → Option UpdateOutcome
  | none => none
  | some none => some .typeError
  | some (some n) => if 255 < n.length then some .invalidInput else none

/-- The six re-validation branches of the update route, in source order,
returning the first failure if any. -/
def routeChecks (today : Int) (u : MovieUpdateData) : Option UpdateOutcome :=
  scoreCheck u.score <|> budgetCheck u.budget <|> revenueCheck u.revenue
    <|> statusCheck u.status <|> dateCheck today u.date <|> nameCheck u.name

/-- The setattr loop of the update route (lines 247-248): overwrite exactly
the fields present in the dumped payload. Only overview can reach this point
as an explicit null (the other nullable fields fail a branch first), setting
the column to null. -/
def applyPatch (u : MovieUpdateData) (m : MovieModel) : MovieModel :=
  { m with
    name := match u.name with | some (some v) => v | _ => m.name
    date := match u.date with | some (some v) => v | _ => m.date
    score := match u.score with | some (some v) => v | _ => m.score
    overview := match u.overview with | some v => v | none => m.overview
    status := match u.status with | some (some v) => v | _ => m.status
    budget := match u.budget with | some (some v) => v | _ => m.budget
    revenue := match u.revenue with | some (some v) => v | _ => m.revenue }

/-- The update_movie handler body (routes/movies.py lines 191-253), given an
already-validated body: reject an empty dump first, then load the movie by id
(not found if absent), then run the six re-validation branches, then apply the
patch to the loaded movie and commit. -/
def update_movie (today : Int) (s : Store) (movie_id : Nat)
    (u : MovieUpdateData) : UpdateOutcome × Store :=
  if u.isEmpty then (.invalidInput, s)
  else
    match s.movies.find? (fun m => m.id == movie_id) with
    | none => (.notFound, s)
    | some _ =>
      match routeChecks today u with
      | some e => (e, s)
      | none =>
        (.success,
         { s with movies :=
             s.movies.map (fun m => if m.id = movie_id then applyPatch u m else m) })

/-- The full update request pipeline: pydantic validation of the body first
(FastAPI request parsing), then the handler. -/
def updatePipeline (today : Int) (s : Store) (movie_id : Nat)
    (p : MovieUpdatePayload) : UpdateOutcome × Store :=
  match MovieUpdateSchema.parse today p with
  | none => (.validationFailure, s)
  | some u => update_movie today s movie_id u

/-- The shape of a list response (MovieListResponseSchema). -/
structure MovieListResponse where
  movies : List MovieModel
  prev_page : Option String
  next_page : Option String
  total_pages : Nat
  total_items : Nat
deriving DecidableEq

/-- The get_movies handler (routes/movies.py lines 31-77): count the movies,
compute total pages as (total + per_page - 1) / per_page, report not found
(none) when there are no movies or the page is past the last, otherwise return
the page slice ordered by descending id with previous and next link strings
present exactly when a prior or following page exists. -/
def get_movies (s : Store) (page per_page : Nat) : Option MovieListResponse :=
  if s.movies.length = 0 ∨ (s.movies.length + per_page - 1) / per_page < page then
    none
  else
    some { movies := ((s.movies.mergeSort (fun a b => decide (b.id ≤ a.id))).drop
             ((page - 1) * per_page)).take per_page
           prev_page :=
             if 1 < page then
               some s!"/theater/movies/?page={page - 1}&per_page={per_page}"
             else none
           next_page :=
             if page < (s.movies.length + per_page - 1) / per_page then
               some s!"/theater/movies/?page={page + 1}&per_page={per_page}"
             else none
           total_pages := (s.movies.length + per_page - 1) / per_page
           total_items := s.movies.length }

/-- Outcome of a delete request. -/
inductive DeleteOutcome where
  | notFound
  | success
deriving DecidableEq

/-- The delete_movie handler (routes/movies.py lines 256-273): load by id,
not found if absent, otherwise delete that row and commit. -/
def delete_movie (s : Store) (movie_id : Nat) : DeleteOutcome × Store :=
  match s.movies.find? (fun m => m.id == movie_id) with
  | none => (.notFound, s)
  | some _ =>
    (.success, { s with movies := s.movies.eraseP (fun m => m.id == movie_id) })

/-- The store invariant of claim C1: no two movie rows share the same
(name, date) pair. -/
def NoDupNameDate (s : Store) : Prop :=
  s.movies.Pairwise (fun a b => ¬(a.name = b.name ∧ a.date = b.date))

instance (s : Store) : Decidable (NoDupNameDate s) := by
  unfold NoDupNameDate
  infer_instance

/-- Well-formedness of the movies table: every row id is below the
autoincrement counter, so a freshly inserted row has a fresh id. -/
def MoviesWF (s : Store) : Prop :=
  ∀ m ∈ s.movies, m.id < s.next_movie_id

instance (s : Store) : Decidable (MoviesWF s) := by
  unfold MoviesWF
  infer_instance

/-- A create body that is valid in every field, with the given name and date;
used to drive concrete runs of the pipelines. -/
def basePayload (nm : String) (d : Int) : MovieCreatePayload :=
  { name := nm, date := d, score := 50, overview := "o", status := "Released",
    budget := 0, revenue := 0, country := "US",
    genres := [], actors := [], languages := [] }

/-- The store after creating movie "A" (date 0) in an empty store. -/
def demoStore1 : Store := (createPipeline 0 {} (basePayload "A" 0)).2

/-- The store after further creating movie "B" (date 0): it holds the two
movies with ids 1 and 2. -/
def demoStore : Store := (createPipeline 0 demoStore1 (basePayload "B" 0)).2

/-- A patch that renames movie 2 to "A", colliding with movie 1 on
(name, date). -/
def renamePatch : MovieUpdatePayload := { name := some (some "A") }

/-- A create body duplicating movie "A" (date 0) of demoStore while also
violating the score rule. -/
def badScorePayload : MovieCreatePayload := { basePayload "A" 0 with score := 101 }

/-- A patch whose only provided field is an explicit null status, which the
update schema accepts. -/
def nullStatusPatch : MovieUpdatePayload := { status := some none }

/-- A parsed patch setting only the score to 50, as in the spec's partial
update example. -/
def scorePatch : MovieUpdateData := { score := some (some 50) }

/-- The result of patching movie 1 of demoStore with scorePatch. -/
def scorePatchedStore : Store := (update_movie 0 demoStore 1 scorePatch).2

/-- A movie row with the given id, used to build witness stores for the list
endpoint. -/
def simpleMovie (i : Nat) : MovieModel :=
  { id := i, name := toString i, date := 0, score := 50, overview := some "o",
    status := .released, budget := 0, revenue := 0, country_id := none,
    genre_ids := [], actor_ids := [], language_ids := [] }

/-- A store holding 25 movies, as in the pagination example of the spec. -/
def store25 : Store :=
  { movies := (List.range 25).map (fun i => simpleMovie (i + 1)),
    next_movie_id := 26 }

/-- The movie carried by a created outcome (a fixed row otherwise). -/
def movieOf (o : CreateOutcome) : MovieModel :=
  match o with
  | .created m => m
  | _ => simpleMovie 0

/-- A create body for movie "A" introducing the genre "Noir". -/
def noirPayload1 : MovieCreatePayload := { basePayload "A" 0 with genres := ["Noir"] }

/-- A create body for movie "B" also carrying the genre "Noir". -/
def noirPayload2 : MovieCreatePayload := { basePayload "B" 0 with genres := ["Noir"] }

/-- A raw patch setting only the score to 50. -/
def halfScorePatchRaw : MovieUpdatePayload := { score := some (some 50) }

/-- The validated form of basePayload "A" 0. -/
def baseValidated : ValidatedCreate :=
  { name := "A", date := 0, score := 50, overview := "o", status := .released,
    budget := 0, revenue := 0, country := "US",
    genres := [], actors := [], languages := [] }

/-- First concrete Noir run: create noirPayload1 in an empty store. -/
def noirRun1 : CreateOutcome × Store := createPipeline 0 {} noirPayload1

/-- Second concrete Noir run: create noirPayload2 in the resulting store. -/
def noirRun2 : CreateOutcome × Store := createPipeline 0 noirRun1.2 noirPayload2

/-- The frame property of applying a patch to a single movie row: each of the
seven updatable columns is overwritten exactly when the patch provides it
(overview may be set to an explicit null) and is unchanged otherwise, and the
id, country and association columns are never touched. -/
def PatchOnlySetsGivenFields (u : MovieUpdateData) : Prop :=
  ∀ m : MovieModel,
    (u.name = none → (applyPatch u m).name = m.name) ∧
    (∀ x, u.name = some (some x) → (applyPatch u m).name = x) ∧
    (u.date = none → (applyPatch u m).date = m.date) ∧
    (∀ x, u.date = some (some x) → (applyPatch u m).date = x) ∧
    (u.score = none → (applyPatch u m).score = m.score) ∧
    (∀ x, u.score = some (some x) → (applyPatch u m).score = x) ∧
    (u.overview = none → (applyPatch u m).overview = m.overview) ∧
    (∀ x, u.overview = some x → (applyPatch u m).overview = x) ∧
    (u.status = none → (applyPatch u m).status = m.status) ∧
    (∀ x, u.status = some (some x) → (applyPatch u m).status = x) ∧
    (u.budget = none → (applyPatch u m).budget = m.budget) ∧
    (∀ x, u.budget = some (some x) → (applyPatch u m).budget = x) ∧
    (u.revenue = none → (applyPatch u m).revenue = m.revenue) ∧
    (∀ x, u.revenue = some (some x) → (applyPatch u m).revenue = x) ∧
    (applyPatch u m).id = m.id ∧
    (applyPatch u m).country_id = m.country_id ∧
    (applyPatch u m).genre_ids = m.genre_ids ∧
    (applyPatch u m).actor_ids = m.actor_ids ∧
    (applyPatch u m).language_ids = m.language_ids

/- Helper lemmas about list search and the create path. -/

theorem find?_append_left_none {α : Type} {p : α → Bool} {l₁ : List α}
    (l₂ : List α) (h : ∀ x ∈ l₁, p x = false) :
    (l₁ ++ l₂).find? p = l₂.find? p := by
  induction l₁ with
  | nil => rfl
  | cons a l ih =>
    rw [List.cons_append, List.find?_cons_of_neg]
    · exact ih fun x hx => h x (List.mem_cons_of_mem a hx)
    · simp [h a (List.mem_cons_self a l)]

theorem create_insert_movies (s : Store) (v : ValidatedCreate) :
    (create_insert s v).2.movies = s.movies ++ [(create_insert s v).1] := rfl

theorem create_insert_id (s : Store) (v : ValidatedCreate) :
    (create_insert s v).1.id = s.next_movie_id := rfl

theorem create_insert_name (s : Store) (v : ValidatedCreate) :
    (create_insert s v).1.name = v.name := rfl

theorem create_insert_date (s : Store) (v : ValidatedCreate) :
    (create_insert s v).1.date = v.date := rfl

theorem create_insert_next (s : Store) (v : ValidatedCreate) :
    (create_insert s v).2.next_movie_id = s.next_movie_id + 1 := rfl

theorem create_insert_genres (s : Store) (v : ValidatedCreate) :
    (create_insert s v).2.genres =
      (resolveAll s.genres s.next_genre_id v.genres).2.1 := rfl

theorem create_insert_genre_ids (s : Store) (v : ValidatedCreate) :
    (create_insert s v).1.genre_ids =
      (resolveAll s.genres s.next_genre_id v.genres).1.map (fun r => r.id) := rfl

theorem wf_create_insert {s : Store} (v : ValidatedCreate) (hwf : MoviesWF s) :
    MoviesWF (create_insert s v).2 := by
  intro m hm
  rw [create_insert_movies] at hm
  rw [create_insert_next]
  rcases List.mem_append.mp hm with h | h
  · exact Nat.lt_succ_of_lt (hwf m h)
  · have hm2 : m = (create_insert s v).1 := by simpa using h
    subst hm2
    rw [create_insert_id]
    exact Nat.lt_succ_self _

theorem create_insert_reload {s : Store} (v : ValidatedCreate) (hwf : MoviesWF s) :
    (create_insert s v).2.movies.find?
        (fun m => m.id == (create_insert s v).1.id) =
      some (create_insert s v).1 := by
  rw [create_insert_movies, find?_append_left_none]
  · simp [List.find?]
  · intro x hx
    rw [create_insert_id]
    exact beq_eq_false_iff_ne.mpr (Nat.ne_of_lt (hwf x hx))

theorem create_movie_eq_insert {s : Store} {v : ValidatedCreate} (hwf : MoviesWF s)
    (hdup : s.movies.filter (fun m => m.name == v.name && m.date == v.date) = []) :
    create_movie s v = (.created (create_insert s v).1, (create_insert s v).2) := by
  unfold create_movie
  rw [hdup]
  simp only [List.length_nil]
  rw [if_neg (by omega), if_neg (by omega)]
  rw [create_insert_reload v hwf]

theorem create_movie_conflict {s : Store} {v : ValidatedCreate}
    (hdup : (s.movies.filter
      (fun m => m.name == v.name && m.date == v.date)).length = 1) :
    create_movie s v = (.conflict, s) := by
  unfold create_movie
  rw [if_pos hdup]

theorem create_movie_created_inv {s : Store} {v : ValidatedCreate}
    {m : MovieModel} {s2 : Store} (hwf : MoviesWF s)
    (h : create_movie s v = (.created m, s2)) :
    s.movies.filter (fun mm => mm.name == v.name && mm.date == v.date) = [] ∧
      m = (create_insert s v).1 ∧ s2 = (create_insert s v).2 := by
  unfold create_movie at h
  split at h
  · simp at h
  · split at h
    · simp at h
    · rename_i h1 h2
      have hlen : (s.movies.filter
          (fun mm => mm.name == v.name && mm.date == v.date)).length = 0 := by
        omega
      have hnil := List.length_eq_zero.mp hlen
      refine ⟨hnil, ?_⟩
      rw [create_insert_reload v hwf] at h
      simp only [Prod.mk.injEq, CreateOutcome.created.injEq] at h
      exact ⟨h.1.symm, h.2.symm⟩

theorem create_movie_store_cases (s : Store) (v : ValidatedCreate) :
    (create_movie s v).2 = s ∨
      ((create_movie s v).2 = (create_insert s v).2 ∧
        s.movies.filter (fun m => m.name == v.name && m.date == v.date) = []) := by
  unfold create_movie
  split
  · left; rfl
  · split
    · left; rfl
    · rename_i h1 h2
      right
      constructor
      · dsimp only
        split <;> rfl
      · exact List.length_eq_zero.mp (by omega)

theorem wf_create_movie {s : Store} (v : ValidatedCreate) (hwf : MoviesWF s) :
    MoviesWF (create_movie s v).2 := by
  rcases create_movie_store_cases s v with h | ⟨h, _⟩ <;> rw [h]
  · exact hwf
  · exact wf_create_insert v hwf

theorem wf_createPipeline (today : Int) {s : Store} (p : MovieCreatePayload)
    (hwf : MoviesWF s) : MoviesWF (createPipeline today s p).2 := by
  unfold createPipeline
  cases hp : MovieCreateSchema.parse today p with
  | none => exact hwf
  | some v => exact wf_create_movie v hwf

/- Helper lemmas about reference-entity resolution. -/

theorem countName_eq_zero_iff (rows : List NamedRow) (nm : String) :
    countName rows nm = 0 ↔ ∀ r ∈ rows, r.name ≠ nm := by
  unfold countName
  rw [List.length_eq_zero, List.filter_eq_nil_iff]
  simp

theorem countName_pos_of_mem {rows : List NamedRow} {r : NamedRow} {nm : String}
    (hr : r ∈ rows) (hn : r.name = nm) : 0 < countName rows nm := by
  unfold countName
  have : r ∈ rows.filter (fun x => x.name == nm) :=
    List.mem_filter.mpr ⟨hr, by simp [hn]⟩
  exact List.length_pos.mpr (List.ne_nil_of_mem this)

theorem countName_append_single (rows : List NamedRow) (r : NamedRow) (nm : String) :
    countName (rows ++ [r]) nm =
      countName rows nm + (if r.name = nm then 1 else 0) := by
  unfold countName
  rw [List.filter_append]
  by_cases h : r.name = nm
  · have hb : (r.name == nm) = true := by simp [h]
    simp [List.filter, hb, h]
  · have hb : (r.name == nm) = false := by simp [h]
    simp [List.filter, hb, h]

theorem get_or_create_cases (rows : List NamedRow) (nid : Nat) (n : String) :
    ((get_or_create rows nid n).2.1 = rows ∧ (get_or_create rows nid n).2.2 = nid ∧
        (get_or_create rows nid n).1 ∈ rows ∧ (get_or_create rows nid n).1.name = n) ∨
      (countName rows n = 0 ∧
        get_or_create rows nid n = (⟨nid, n⟩, rows ++ [⟨nid, n⟩], nid + 1)) := by
  unfold get_or_create
  cases hf : rows.find? (fun r => r.name == n) with
  | some r =>
    left
    refine ⟨rfl, rfl, List.mem_of_find?_eq_some hf, ?_⟩
    have := List.find?_some hf
    simpa using this
  | none =>
    right
    refine ⟨?_, rfl⟩
    rw [countName_eq_zero_iff]
    intro r hr
    have := List.find?_eq_none.mp hf r hr
    simpa using this

theorem countName_resolveAll (names : List String) (rows : List NamedRow)
    (nid : Nat) (nm : String) :
    countName (resolveAll rows nid names).2.1 nm =
      if countName rows nm = 0 then (if nm ∈ names then 1 else 0)
      else countName rows nm := by
  induction names generalizing rows nid with
  | nil => by_cases hz : countName rows nm = 0 <;> simp [resolveAll, hz]
  | cons n rest ih =>
    show countName (resolveAll (get_or_create rows nid n).2.1
        (get_or_create rows nid n).2.2 rest).2.1 nm = _
    rcases get_or_create_cases rows nid n with ⟨h1, h2, hmem, hname⟩ | ⟨hcnt, heq⟩
    · rw [h1, h2, ih]
      have hpos : 0 < countName rows n := countName_pos_of_mem hmem hname
      by_cases hz : countName rows nm = 0
      · have hne : nm ≠ n := by
          intro he
          rw [he] at hz
          omega
        simp [hz, List.mem_cons, hne]
      · simp [hz]
    · rw [heq]
      show countName (resolveAll (rows ++ [⟨nid, n⟩]) (nid + 1) rest).2.1 nm = _
      rw [ih, countName_append_single]
      by_cases he : nm = n
      · subst he
        simp [hcnt]
      · have : (⟨nid, n⟩ : NamedRow).name = nm ↔ False := by simpa using Ne.symm he
        simp only [this, if_false, Nat.add_zero]
        by_cases hz : countName rows nm = 0
        · simp [hz, List.mem_cons, he]
        · simp [hz]

theorem mem_resolveAll (names : List String) (rows : List NamedRow) (nid : Nat)
    {r : NamedRow} (h : r ∈ rows) : r ∈ (resolveAll rows nid names).2.1 := by
  induction names generalizing rows nid with
  | nil => simpa [resolveAll]
  | cons n rest ih =>
    show r ∈ (resolveAll (get_or_create rows nid n).2.1
        (get_or_create rows nid n).2.2 rest).2.1
    apply ih
    rcases get_or_create_cases rows nid n with ⟨h1, _, _, _⟩ | ⟨_, heq⟩
    · rw [h1]; exact h
    · rw [heq]
      exact List.mem_append_left _ h

theorem resolveAll_finds (names : List String) (rows : List NamedRow) (nid : Nat)
    {nm : String} (h : nm ∈ names) :
    ∃ r, r ∈ (resolveAll rows nid names).1 ∧ r.name = nm ∧
      r ∈ (resolveAll rows nid names).2.1 := by
  induction names generalizing rows nid with
  | nil => cases h
  | cons n rest ih =>
    have hshape : resolveAll rows nid (n :: rest) =
        ((get_or_create rows nid n).1 ::
            (resolveAll (get_or_create rows nid n).2.1
              (get_or_create rows nid n).2.2 rest).1,
          (resolveAll (get_or_create rows nid n).2.1
            (get_or_create rows nid n).2.2 rest).2.1,
          (resolveAll (get_or_create rows nid n).2.1
            (get_or_create rows nid n).2.2 rest).2.2) := rfl
    rcases List.mem_cons.mp h with he | hmem
    · subst he
      refine ⟨(get_or_create rows nid nm).1, ?_, ?_, ?_⟩
      · rw [hshape]; exact List.mem_cons_self _ _
      · rcases get_or_create_cases rows nid nm with ⟨_, _, _, hname⟩ | ⟨_, heq⟩
        · exact hname
        · rw [heq]
      · rw [hshape]
        apply mem_resolveAll
        rcases get_or_create_cases rows nid nm with ⟨h1, _, hmem2, _⟩ | ⟨_, heq⟩
        · rw [h1]; exact hmem2
        · rw [heq]; simp
    · obtain ⟨r, h1, h2, h3⟩ := ih (get_or_create rows nid n).2.1
        (get_or_create rows nid n).2.2 hmem
      refine ⟨r, ?_, h2, ?_⟩
      · rw [hshape]
        exact List.mem_cons_of_mem _ h1
      · rw [hshape]
        exact h3

theorem filter_singleton_of_count_one {rows : List NamedRow} {nm : String}
    (hc : countName rows nm = 1) {r1 r2 : NamedRow}
    (h1 : r1 ∈ rows) (hn1 : r1.name = nm) (h2 : r2 ∈ rows) (hn2 : r2.name = nm) :
    rows.filter (fun r => r.name == nm) = [r1] ∧ r2 = r1 := by
  have hm1 : r1 ∈ rows.filter (fun r => r.name == nm) :=
    List.mem_filter.mpr ⟨h1, by simp [hn1]⟩
  have hm2 : r2 ∈ rows.filter (fun r => r.name == nm) :=
    List.mem_filter.mpr ⟨h2, by simp [hn2]⟩
  unfold countName at hc
  obtain ⟨x, hx⟩ := List.length_eq_one.mp hc
  rw [hx] at hm1 hm2 ⊢
  rw [List.mem_singleton] at hm1 hm2
  subst hm1
  subst hm2
  exact ⟨rfl, rfl⟩

/- Helper lemmas about the create schema. -/

theorem parse_create_isSome_iff (today : Int) (p : MovieCreatePayload) :
    (MovieCreateSchema.parse today p).isSome = true ↔
      ((MovieStatus.ofValue p.status).isSome = true ∧ p.name.length ≤ 255 ∧
        p.date ≤ today + 365 ∧ 0 ≤ p.score ∧ p.score ≤ 100 ∧
        0 ≤ p.budget ∧ 0 ≤ p.revenue ∧ countryCodeOk p.country = true) := by
  unfold MovieCreateSchema.parse
  cases hst : MovieStatus.ofValue p.status with
  | none => simp
  | some st =>
    simp only [Option.isSome_some, true_and]
    split
    · rename_i hc
      simp only [Option.isSome_some, true_iff]
      simp only [validate_movie_date, Bool.and_eq_true, decide_eq_true_eq] at hc
      tauto
    · rename_i hc
      simp only [Option.isSome_none, Bool.false_eq_true, false_iff]
      intro hh
      apply hc
      simp only [validate_movie_date, Bool.and_eq_true, decide_eq_true_eq]
      tauto

theorem parse_create_fields {today : Int} {p : MovieCreatePayload}
    {v : ValidatedCreate} (h : MovieCreateSchema.parse today p = some v) :
    v.name = p.name ∧ v.date = p.date ∧ v.genres = p.genres := by
  unfold MovieCreateSchema.parse at h
  split at h
  · exact absurd h (by simp)
  · split at h
    · simp only [Option.some.injEq] at h
      subst h
      exact ⟨rfl, rfl, rfl⟩
    · exact absurd h (by simp)

/- Helper lemmas about the update schema and route. -/

theorem parse_update_fields {today : Int} {p : MovieUpdatePayload}
    {u : MovieUpdateData} (h : MovieUpdateSchema.parse today p = some u) :
    u.name = p.name ∧ u.date = p.date ∧ u.score = p.score ∧
      u.overview = p.overview ∧ u.budget = p.budget ∧ u.revenue = p.revenue ∧
      fieldOk (fun n : String => decide (n.length ≤ 255)) p.name = true ∧
      fieldOk (fun d : Int => validate_movie_date today (some d)) p.date = true ∧
      fieldOk (fun x : ℚ => decide (0 ≤ x) && decide (x ≤ 100)) p.score = true ∧
      fieldOk (fun x : ℚ => decide (0 ≤ x)) p.budget = true ∧
      fieldOk (fun x : ℚ => decide (0 ≤ x)) p.revenue = true ∧
      (u.status = none ∨ u.status = some none ∨ ∃ st, u.status = some (some st)) := by
  unfold MovieUpdateSchema.parse at h
  split at h
  · split at h
    · exact absurd h (by simp)
    · rename_i sv st hofv
      split at h
      · rename_i hc
        simp only [Option.some.injEq] at h
        subst h
        simp only [Bool.and_eq_true] at hc
        exact ⟨rfl, rfl, rfl, rfl, rfl, rfl, hc.1.1.1.1, hc.1.1.1.2,
          hc.1.1.2, hc.1.2, hc.2, Or.inr (Or.inr ⟨st, rfl⟩)⟩
      · exact absurd h (by simp)
  · rename_i other hother
    split at h
    · rename_i hc
      simp only [Option.some.injEq] at h
      subst h
      simp only [Bool.and_eq_true] at hc
      refine ⟨rfl, rfl, rfl, rfl, rfl, rfl, hc.1.1.1.1, hc.1.1.1.2,
        hc.1.1.2, hc.1.2, hc.2, ?_⟩
      cases hps : p.status <;> simp [hps]
    · exact absurd h (by simp)

theorem statusCheck_member (st : MovieStatus) :
    statusCheck (some (some st)) = none := by
  cases st <;> rfl

theorem scoreCheck_of_ok {x : ℚ} (h1 : 0 ≤ x) (h2 : x ≤ 100) :
    scoreCheck (some (some x)) = none := by
  simp only [scoreCheck]
  rw [if_neg]
  push_neg
  exact ⟨h1, h2⟩

theorem budgetCheck_of_ok {x : ℚ} (h1 : 0 ≤ x) :
    budgetCheck (some (some x)) = none := by
  simp only [budgetCheck]
  rw [if_neg]
  simp only [not_lt]
  exact h1

theorem revenueCheck_of_ok {x : ℚ} (h1 : 0 ≤ x) :
    revenueCheck (some (some x)) = none := by
  simp only [revenueCheck]
  rw [if_neg]
  simp only [not_lt]
  exact h1

theorem dateCheck_of_ok {today d : Int} (h : d ≤ today + 365) :
    dateCheck today (some (some d)) = none := by
  simp only [dateCheck]
  rw [if_neg]
  simp only [not_lt]
  exact h

theorem nameCheck_of_ok {n : String} (h : n.length ≤ 255) :
    nameCheck (some (some n)) = none := by
  simp only [nameCheck]
  rw [if_neg]
  simp only [not_lt]
  exact h

theorem routeChecks_none_of_parsed {today : Int} {p : MovieUpdatePayload}
    {u : MovieUpdateData} (h : MovieUpdateSchema.parse today p = some u)
    (hn : u.name ≠ some none) (hd : u.date ≠ some none)
    (hs : u.score ≠ some none) (hst : u.status ≠ some none)
    (hb : u.budget ≠ some none) (hr : u.revenue ≠ some none) :
    routeChecks today u = none := by
  obtain ⟨e1, e2, e3, e4, e5, e6, c1, c2, c3, c4, c5, cst⟩ := parse_update_fields h
  have hsc : scoreCheck u.score = none := by
    rw [e3] at hs ⊢
    cases hx : p.score with
    | none => rfl
    | some y =>
      cases hy : y with
      | none => rw [hx, hy] at hs; exact absurd rfl hs
      | some x =>
        subst hy
        rw [hx] at c3
        simp only [fieldOk, Bool.and_eq_true, decide_eq_true_eq] at c3
        exact scoreCheck_of_ok c3.1 c3.2
  have hbc : budgetCheck u.budget = none := by
    rw [e5] at hb ⊢
    cases hx : p.budget with
    | none => rfl
    | some y =>
      cases hy : y with
      | none => rw [hx, hy] at hb; exact absurd rfl hb
      | some x =>
        subst hy
        rw [hx] at c4
        simp only [fieldOk, decide_eq_true_eq] at c4
        exact budgetCheck_of_ok c4
  have hrc : revenueCheck u.revenue = none := by
    rw [e6] at hr ⊢
    cases hx : p.revenue with
    | none => rfl
    | some y =>
      cases hy : y with
      | none => rw [hx, hy] at hr; exact absurd rfl hr
      | some x =>
        subst hy
        rw [hx] at c5
        simp only [fieldOk, decide_eq_true_eq] at c5
        exact revenueCheck_of_ok c5
  have hstc : statusCheck u.status = none := by
    rcases cst with hu | hu | ⟨st, hu⟩
    · rw [hu]; rfl
    · exact absurd hu hst
    · rw [hu]; exact statusCheck_member st
  have hdc : dateCheck today u.date = none := by
    rw [e2] at hd ⊢
    cases hx : p.date with
    | none => rfl
    | some y =>
      cases hy : y with
      | none => rw [hx, hy] at hd; exact absurd rfl hd
      | some d =>
        subst hy
        rw [hx] at c2
        simp only [fieldOk, validate_movie_date, decide_eq_true_eq] at c2
        exact dateCheck_of_ok c2
  have hnc : nameCheck u.name = none := by
    rw [e1] at hn ⊢
    cases hx : p.name with
    | none => rfl
    | some y =>
      cases hy : y with
      | none => rw [hx, hy] at hn; exact absurd rfl hn
      | some n =>
        subst hy
        rw [hx] at c1
        simp only [fieldOk, decide_eq_true_eq] at c1
        exact nameCheck_of_ok c1
  unfold routeChecks
  rw [hsc, hbc, hrc, hstc, hdc, hnc]
  rfl

theorem scoreCheck_ne_success (x : Option (Option ℚ)) :
    scoreCheck x ≠ some .success := by
  unfold scoreCheck
  cases x with
  | none => simp
  | some y =>
    cases y with
    | none => simp
    | some v => split <;> simp

theorem budgetCheck_ne_success (x : Option (Option ℚ)) :
    budgetCheck x ≠ some .success := by
  unfold budgetCheck
  cases x with
  | none => simp
  | some y =>
    cases y with
    | none => simp
    | some v => split <;> simp

theorem revenueCheck_ne_success (x : Option (Option ℚ)) :
    revenueCheck x ≠ some .success := by
  unfold revenueCheck
  cases x with
  | none => simp
  | some y =>
    cases y with
    | none => simp
    | some v => split <;> simp

theorem statusCheck_ne_success (x : Option (Option MovieStatus)) :
    statusCheck x ≠ some .success := by
  unfold statusCheck
  cases x with
  | none => simp
  | some y =>
    cases y with
    | none => simp
    | some v => split <;> simp

theorem dateCheck_ne_success (today : Int) (x : Option (Option Int)) :
    dateCheck today x ≠ some .success := by
  unfold dateCheck
  cases x with
  | none => simp
  | some y =>
    cases y with
    | none => simp
    | some v => split <;> simp

theorem nameCheck_ne_success (x : Option (Option String)) :
    nameCheck x ≠ some .success := by
  unfold nameCheck
  cases x with
  | none => simp
  | some y =>
    cases y with
    | none => simp
    | some v => split <;> simp

theorem orElse_eq_some_cases {α : Type} {a b : Option α} {e : α}
    (h : (a <|> b) = some e) : a = some e ∨ b = some e := by
  cases a with
  | none => right; simpa using h
  | some x => left; simpa using h

theorem routeChecks_ne_success (today : Int) (u : MovieUpdateData) :
    routeChecks today u ≠ some .success := by
  intro h
  unfold routeChecks at h
  rcases orElse_eq_some_cases h with h | h
  · exact scoreCheck_ne_success _ h
  rcases orElse_eq_some_cases h with h | h
  · exact budgetCheck_ne_success _ h
  rcases orElse_eq_some_cases h with h | h
  · exact revenueCheck_ne_success _ h
  rcases orElse_eq_some_cases h with h | h
  · exact statusCheck_ne_success _ h
  rcases orElse_eq_some_cases h with h | h
  · exact dateCheck_ne_success _ _ h
  · exact nameCheck_ne_success _ h

theorem update_movie_eq_success {today : Int} {s : Store} {mid : Nat}
    {u : MovieUpdateData} (he : u.isEmpty = false)
    (hf : (s.movies.find? (fun m => m.id == mid)).isSome = true)
    (hc : routeChecks today u = none) :
    update_movie today s mid u =
      (.success,
        { s with movies :=
            s.movies.map (fun m => if m.id = mid then applyPatch u m else m) }) := by
  unfold update_movie
  rw [he]
  simp only [Bool.false_eq_true, if_false]
  obtain ⟨m, hm⟩ := Option.isSome_iff_exists.mp hf
  rw [hm, hc]

theorem update_movie_success_inv {today : Int} {s : Store} {mid : Nat}
    {u : MovieUpdateData} {s2 : Store}
    (h : update_movie today s mid u = (.success, s2)) :
    s2 = { s with movies :=
        s.movies.map (fun m => if m.id = mid then applyPatch u m else m) } := by
  unfold update_movie at h
  split at h
  · simp at h
  · split at h
    · simp at h
    · split at h
      · rename_i e hre
        simp only [Prod.mk.injEq] at h
        exact absurd (h.1 ▸ hre) (routeChecks_ne_success today u)
      · simp only [Prod.mk.injEq] at h
        exact h.2.symm

theorem update_movie_notFound {today : Int} {s : Store} {mid : Nat}
    {u : MovieUpdateData} (hne : u.isEmpty = false)
    (hf : s.movies.find? (fun m => m.id == mid) = none) :
    update_movie today s mid u = (.notFound, s) := by
  unfold update_movie
  rw [hne]
  simp only [Bool.false_eq_true, if_false, hf]

/- Claim theorems. -/

/-- C1, counterexample: the (name, date)-uniqueness invariant is not preserved
by every operation. demoStore (reached by two creates) satisfies the
invariant, yet the update renaming movie 2 to "A" succeeds and leaves two
movies with name "A" and date 0, so update can break the invariant. -/
theorem C1_counterexample :
    NoDupNameDate demoStore ∧
      (updatePipeline 0 demoStore 2 renamePatch).1 = .success ∧
      ¬ NoDupNameDate (updatePipeline 0 demoStore 2 renamePatch).2 :=
  ⟨by decide, by decide, by decide⟩

/-- C1 (amended): the create and delete operations preserve the invariant that
no two movie rows share the same (name, date) pair; the update operation
performs no such check and can break it. -/
theorem C1_create_delete_preserve_nameDateUnique (today : Int) (s : Store)
    (p : MovieCreatePayload) (mid : Nat) (h : NoDupNameDate s) :
    NoDupNameDate (createPipeline today s p).2 ∧
      NoDupNameDate (delete_movie s mid).2 := by
  constructor
  · unfold createPipeline
    cases hp : MovieCreateSchema.parse today p with
    | none => exact h
    | some v =>
      rcases create_movie_store_cases s v with hc | ⟨hc, hdup⟩ <;> rw [hc]
      · exact h
      · unfold NoDupNameDate
        rw [create_insert_movies, List.pairwise_append]
        refine ⟨h, List.pairwise_singleton _ _, ?_⟩
        intro a ha b hb
        rw [List.mem_singleton] at hb
        subst hb
        rw [create_insert_name, create_insert_date]
        have hnc := List.filter_eq_nil_iff.mp hdup a ha
        intro hcon
        apply hnc
        simp [hcon.1, hcon.2]
  · unfold delete_movie
    cases hf : s.movies.find? (fun m => m.id == mid) with
    | none => exact h
    | some m => exact h.sublist (List.eraseP_sublist _)

/-- C1, witness for the amended theorem at concrete inputs. -/
theorem C1_create_delete_preserve_nameDateUnique_witness :
    NoDupNameDate demoStore ∧
      (NoDupNameDate (createPipeline 0 demoStore (basePayload "C" 1)).2 ∧
        NoDupNameDate (delete_movie demoStore 1).2) :=
  ⟨by decide,
    C1_create_delete_preserve_nameDateUnique 0 demoStore (basePayload "C" 1) 1
      (by decide)⟩

/-- C2 (confirmed): for two schema-valid create bodies with the same name and
date, run one after the other against a store holding no movie with that
(name, date), the first create succeeds, the second yields a conflict leaving
the store unchanged, and exactly one movie with that (name, date) exists. -/
theorem C2_second_create_conflicts (today : Int) (s : Store)
    (p1 p2 : MovieCreatePayload) (v1 : ValidatedCreate)
    (h1 : MovieCreateSchema.parse today p1 = some v1)
    (h2 : (MovieCreateSchema.parse today p2).isSome = true)
    (hn : p2.name = p1.name) (hd : p2.date = p1.date)
    (hwf : MoviesWF s)
    (hdup : s.movies.filter (fun m => m.name == p1.name && m.date == p1.date) = []) :
    ∃ m1 s1, createPipeline today s p1 = (.created m1, s1) ∧
      createPipeline today s1 p2 = (.conflict, s1) ∧
      (s1.movies.filter
        (fun m => m.name == p1.name && m.date == p1.date)).length = 1 := by
  obtain ⟨f1n, f1d, _⟩ := parse_create_fields h1
  have hdup1 : s.movies.filter
      (fun m => m.name == v1.name && m.date == v1.date) = [] := by
    rw [f1n, f1d]
    exact hdup
  have hb : ((create_insert s v1).1.name == p1.name
      && (create_insert s v1).1.date == p1.date) = true := by
    rw [create_insert_name, create_insert_date, f1n, f1d]
    simp
  have hfilter1 : (create_insert s v1).2.movies.filter
      (fun m => m.name == p1.name && m.date == p1.date) =
        [(create_insert s v1).1] := by
    rw [create_insert_movies, List.filter_append, hdup]
    simp [List.filter, hb]
  refine ⟨(create_insert s v1).1, (create_insert s v1).2, ?_, ?_, ?_⟩
  · unfold createPipeline
    rw [h1]
    exact create_movie_eq_insert hwf hdup1
  · obtain ⟨v2, hv2⟩ := Option.isSome_iff_exists.mp h2
    obtain ⟨f2n, f2d, _⟩ := parse_create_fields hv2
    unfold createPipeline
    rw [hv2]
    apply create_movie_conflict
    rw [f2n, f2d, hn, hd, hfilter1]
    rfl
  · rw [hfilter1]
    rfl

/-- C2, witness at concrete inputs: creating "A" twice on date 0 with
different scores. -/
theorem C2_second_create_conflicts_witness :
    MovieCreateSchema.parse 0 (basePayload "A" 0) = some baseValidated ∧
      (∃ m1 s1,
        createPipeline 0 {} (basePayload "A" 0) = (.created m1, s1) ∧
        createPipeline 0 s1 { basePayload "A" 0 with score := 60 } =
          (.conflict, s1) ∧
        (s1.movies.filter (fun m => m.name == (basePayload "A" 0).name
          && m.date == (basePayload "A" 0).date)).length = 1) :=
  ⟨by decide,
    C2_second_create_conflicts 0 {} (basePayload "A" 0)
      { basePayload "A" 0 with score := 60 } baseValidated
      (by decide) (by decide) (by decide) (by decide) (by decide) (by decide)⟩

/-- C3, counterexample: a create body that duplicates an existing movie's
(name, date) and violates the score rule yields ValidationFailure, not
Conflict: the schema validator runs during request parsing, before the
handler's duplicate check. -/
theorem C3_counterexample :
    (∃ m ∈ demoStore.movies,
        m.name = badScorePayload.name ∧ m.date = badScorePayload.date) ∧
      createPipeline 0 demoStore badScorePayload =
        (.validationFailure, demoStore) ∧
      (createPipeline 0 demoStore badScorePayload).1 ≠ .conflict :=
  ⟨by decide, by decide, by decide⟩

/-- C3 (amended): the schema validator runs before the duplicate (name, date)
check, so a create body that fails validation yields ValidationFailure even
when it duplicates an existing movie's (name, date). -/
theorem C3_validation_precedes_duplicate_check (today : Int) (s : Store)
    (p : MovieCreatePayload)
    (hdup : ∃ m ∈ s.movies, m.name = p.name ∧ m.date = p.date)
    (hbad : MovieCreateSchema.parse today p = none) :
    createPipeline today s p = (.validationFailure, s) := by
  unfold createPipeline
  rw [hbad]

/-- C3, witness for the amended theorem at concrete inputs. -/
theorem C3_validation_precedes_duplicate_check_witness :
    (∃ m ∈ demoStore.movies,
        m.name = badScorePayload.name ∧ m.date = badScorePayload.date) ∧
      MovieCreateSchema.parse 0 badScorePayload = none ∧
      createPipeline 0 demoStore badScorePayload =
        (.validationFailure, demoStore) :=
  ⟨by decide, by decide,
    C3_validation_precedes_duplicate_check 0 demoStore badScorePayload
      (by decide) (by decide)⟩

/-- C4, counterexample: an empty patch aimed at an absent id yields the
invalid-input outcome, not NotFound: the route rejects an empty dump before
loading the movie by id. -/
theorem C4_counterexample :
    demoStore.movies.find? (fun m => m.id == 99) = none ∧
      updatePipeline 0 demoStore 99 {} = (.invalidInput, demoStore) ∧
      (updatePipeline 0 demoStore 99 ({} : MovieUpdatePayload)).1 ≠ .notFound :=
  ⟨by decide, by decide, by decide⟩

/-- C4 (amended): for update bodies that parse under the update schema and
provide at least one field, an absent id yields NotFound regardless of the
fields' values; an empty patch is rejected as invalid input before the id
lookup, even when the id is absent. -/
theorem C4_absent_id_notFound (today : Int) (s : Store) (mid : Nat)
    (p : MovieUpdatePayload) (u : MovieUpdateData)
    (hp : MovieUpdateSchema.parse today p = some u)
    (hne : u.isEmpty = false)
    (habs : s.movies.find? (fun m => m.id == mid) = none) :
    updatePipeline today s mid p = (.notFound, s) := by
  unfold updatePipeline
  rw [hp]
  exact update_movie_notFound hne habs

/-- C4, witness for the amended theorem at concrete inputs. -/
theorem C4_absent_id_notFound_witness :
    MovieUpdateSchema.parse 0 halfScorePatchRaw = some scorePatch ∧
      MovieUpdateData.isEmpty scorePatch = false ∧
      ({} : Store).movies.find? (fun m => m.id == 1) = none ∧
      updatePipeline 0 {} 1 halfScorePatchRaw = (.notFound, {}) :=
  ⟨by decide, by decide, by decide,
    C4_absent_id_notFound 0 {} 1 halfScorePatchRaw scorePatch
      (by decide) (by decide) (by decide)⟩

/- Helper lemmas computing the update pipeline on single-field patches. -/

theorem parse_update_dateOnly (today d : Int) :
    MovieUpdateSchema.parse today ({ date := some (some d) } : MovieUpdatePayload) =
      if d ≤ today + 365 then
        some ({ date := some (some d) } : MovieUpdateData)
      else none := by
  unfold MovieUpdateSchema.parse
  by_cases hdle : d ≤ today + 365 <;>
    simp [fieldOk, validate_movie_date, hdle]

theorem parse_update_scoreOnly (today : Int) (x : ℚ) :
    MovieUpdateSchema.parse today ({ score := some (some x) } : MovieUpdatePayload) =
      if 0 ≤ x ∧ x ≤ 100 then
        some ({ score := some (some x) } : MovieUpdateData)
      else none := by
  unfold MovieUpdateSchema.parse
  by_cases h : 0 ≤ x ∧ x ≤ 100
  · simp [fieldOk, h.1, h.2]
  · rcases not_and_or.mp h with h1 | h1 <;> simp [fieldOk, h1, h]

theorem parse_update_budgetOnly (today : Int) (x : ℚ) :
    MovieUpdateSchema.parse today ({ budget := some (some x) } : MovieUpdatePayload) =
      if 0 ≤ x then
        some ({ budget := some (some x) } : MovieUpdateData)
      else none := by
  unfold MovieUpdateSchema.parse
  by_cases h : 0 ≤ x <;> simp [fieldOk, h]

theorem parse_update_revenueOnly (today : Int) (x : ℚ) :
    MovieUpdateSchema.parse today ({ revenue := some (some x) } : MovieUpdatePayload) =
      if 0 ≤ x then
        some ({ revenue := some (some x) } : MovieUpdateData)
      else none := by
  unfold MovieUpdateSchema.parse
  by_cases h : 0 ≤ x <;> simp [fieldOk, h]

theorem routeChecks_dateOnly {today d : Int} (h : d ≤ today + 365) :
    routeChecks today ({ date := some (some d) } : MovieUpdateData) = none := by
  show (scoreCheck none <|> budgetCheck none <|> revenueCheck none
    <|> statusCheck none <|> dateCheck today (some (some d)) <|> nameCheck none) = none
  rw [dateCheck_of_ok h]
  rfl

theorem routeChecks_scoreOnly {x : ℚ} (today : Int) (h1 : 0 ≤ x) (h2 : x ≤ 100) :
    routeChecks today ({ score := some (some x) } : MovieUpdateData) = none := by
  show (scoreCheck (some (some x)) <|> budgetCheck none <|> revenueCheck none
    <|> statusCheck none <|> dateCheck today none <|> nameCheck none) = none
  rw [scoreCheck_of_ok h1 h2]
  rfl

theorem routeChecks_budgetOnly {x : ℚ} (today : Int) (h1 : 0 ≤ x) :
    routeChecks today ({ budget := some (some x) } : MovieUpdateData) = none := by
  show (scoreCheck none <|> budgetCheck (some (some x)) <|> revenueCheck none
    <|> statusCheck none <|> dateCheck today none <|> nameCheck none) = none
  rw [budgetCheck_of_ok h1]
  rfl

theorem routeChecks_revenueOnly {x : ℚ} (today : Int) (h1 : 0 ≤ x) :
    routeChecks today ({ revenue := some (some x) } : MovieUpdateData) = none := by
  show (scoreCheck none <|> budgetCheck none <|> revenueCheck (some (some x))
    <|> statusCheck none <|> dateCheck today none <|> nameCheck none) = none
  rw [revenueCheck_of_ok h1]
  rfl

/-- C5 (confirmed): with every other rule satisfied, the duplicate check
clear and the target movie present, a create body is accepted exactly when
its date is at most today plus 365 days, and an update patching only the date
succeeds exactly under the same inclusive bound — so date equal to today plus
365 passes and today plus 366 is rejected, on both create and update. -/
theorem C5_date_ceiling (today : Int) (s : Store) (p : MovieCreatePayload)
    (mid : Nat) (d : Int)
    (hst : (MovieStatus.ofValue p.status).isSome = true)
    (hname : p.name.length ≤ 255)
    (hsc1 : 0 ≤ p.score) (hsc2 : p.score ≤ 100)
    (hb : 0 ≤ p.budget) (hr : 0 ≤ p.revenue)
    (hco : countryCodeOk p.country = true)
    (hwf : MoviesWF s)
    (hdup : s.movies.filter (fun m => m.name == p.name && m.date == p.date) = [])
    (hmem : (s.movies.find? (fun m => m.id == mid)).isSome = true) :
    ((createPipeline today s p).1.isCreated = true ↔ p.date ≤ today + 365) ∧
      ((updatePipeline today s mid { date := some (some d) }).1 = .success ↔
        d ≤ today + 365) := by
  constructor
  · constructor
    · intro hcr
      have hsome : (MovieCreateSchema.parse today p).isSome = true := by
        unfold createPipeline at hcr
        cases hp : MovieCreateSchema.parse today p with
        | none =>
          rw [hp] at hcr
          simp [CreateOutcome.isCreated] at hcr
        | some v => rfl
      exact ((parse_create_isSome_iff today p).mp hsome).2.2.1
    · intro hdle
      have hsome : (MovieCreateSchema.parse today p).isSome = true :=
        (parse_create_isSome_iff today p).mpr
          ⟨hst, hname, hdle, hsc1, hsc2, hb, hr, hco⟩
      obtain ⟨v, hv⟩ := Option.isSome_iff_exists.mp hsome
      obtain ⟨fn, fd, _⟩ := parse_create_fields hv
      have hdupv : s.movies.filter
          (fun m => m.name == v.name && m.date == v.date) = [] := by
        rw [fn, fd]
        exact hdup
      unfold createPipeline
      rw [hv]
      show (create_movie s v).1.isCreated = true
      rw [create_movie_eq_insert hwf hdupv]
      rfl
  · by_cases hdle : d ≤ today + 365
    · unfold updatePipeline
      rw [parse_update_dateOnly, if_pos hdle]
      show (update_movie today s mid { date := some (some d) }).1 = .success ↔
        d ≤ today + 365
      rw [@update_movie_eq_success today s mid { date := some (some d) } rfl hmem
        (routeChecks_dateOnly hdle)]
      exact ⟨fun _ => hdle, fun _ => rfl⟩
    · unfold updatePipeline
      rw [parse_update_dateOnly, if_neg hdle]
      show UpdateOutcome.validationFailure = .success ↔ d ≤ today + 365
      constructor
      · intro hfal
        exact absurd hfal (by decide)
      · intro h2
        exact absurd h2 hdle

/-- C5, witness at concrete inputs: today 0, a payload dated 365, and a date
patch of 365 on a store holding movie 1. -/
theorem C5_date_ceiling_witness :
    ((createPipeline 0 demoStore (basePayload "C" 365)).1.isCreated = true ↔
        (basePayload "C" 365).date ≤ 0 + 365) ∧
      ((updatePipeline 0 demoStore 1 { date := some (some 365) }).1 = .success ↔
        (365 : Int) ≤ 0 + 365) :=
  C5_date_ceiling 0 demoStore (basePayload "C" 365) 1 365
    (by decide) (by decide) (by decide) (by decide) (by decide) (by decide)
    (by decide) (by decide) (by decide) (by decide)

/-- C6 (confirmed): with every other rule satisfied, the duplicate check
clear and the target movie present, a create body is accepted exactly when
its score lies in [0, 100] and its budget and revenue are nonnegative, and an
update patching only the score (budget, revenue) succeeds exactly when the
value satisfies the same inclusive bounds — so the boundary values 0, 100 for
score and 0 for budget and revenue pass, while -1, 101 and negatives are
rejected. -/
theorem C6_numeric_bounds (today : Int) (s : Store) (p : MovieCreatePayload)
    (mid : Nat) (x : ℚ)
    (hst : (MovieStatus.ofValue p.status).isSome = true)
    (hname : p.name.length ≤ 255)
    (hdate : p.date ≤ today + 365)
    (hco : countryCodeOk p.country = true)
    (hwf : MoviesWF s)
    (hdup : s.movies.filter (fun m => m.name == p.name && m.date == p.date) = [])
    (hmem : (s.movies.find? (fun m => m.id == mid)).isSome = true) :
    ((createPipeline today s p).1.isCreated = true ↔
        0 ≤ p.score ∧ p.score ≤ 100 ∧ 0 ≤ p.budget ∧ 0 ≤ p.revenue) ∧
      ((updatePipeline today s mid { score := some (some x) }).1 = .success ↔
        0 ≤ x ∧ x ≤ 100) ∧
      ((updatePipeline today s mid { budget := some (some x) }).1 = .success ↔
        0 ≤ x) ∧
      ((updatePipeline today s mid { revenue := some (some x) }).1 = .success ↔
        0 ≤ x) := by
  refine ⟨?_, ?_, ?_, ?_⟩
  · constructor
    · intro hcr
      have hsome : (MovieCreateSchema.parse today p).isSome = true := by
        unfold createPipeline at hcr
        cases hp : MovieCreateSchema.parse today p with
        | none =>
          rw [hp] at hcr
          simp [CreateOutcome.isCreated] at hcr
        | some v => rfl
      have hall := (parse_create_isSome_iff today p).mp hsome
      exact ⟨hall.2.2.2.1, hall.2.2.2.2.1, hall.2.2.2.2.2.1, hall.2.2.2.2.2.2.1⟩
    · intro hnum
      have hsome : (MovieCreateSchema.parse today p).isSome = true :=
        (parse_create_isSome_iff today p).mpr
          ⟨hst, hname, hdate, hnum.1, hnum.2.1, hnum.2.2.1, hnum.2.2.2, hco⟩
      obtain ⟨v, hv⟩ := Option.isSome_iff_exists.mp hsome
      obtain ⟨fn, fd, _⟩ := parse_create_fields hv
      have hdupv : s.movies.filter
          (fun m => m.name == v.name && m.date == v.date) = [] := by
        rw [fn, fd]
        exact hdup
      unfold createPipeline
      rw [hv]
      show (create_movie s v).1.isCreated = true
      rw [create_movie_eq_insert hwf hdupv]
      rfl
  · by_cases hx : 0 ≤ x ∧ x ≤ 100
    · unfold updatePipeline
      rw [parse_update_scoreOnly, if_pos hx]
      show (update_movie today s mid { score := some (some x) }).1 = .success ↔
        0 ≤ x ∧ x ≤ 100
      rw [@update_movie_eq_success today s mid { score := some (some x) } rfl hmem
        (routeChecks_scoreOnly today hx.1 hx.2)]
      exact ⟨fun _ => hx, fun _ => rfl⟩
    · unfold updatePipeline
      rw [parse_update_scoreOnly, if_neg hx]
      show UpdateOutcome.validationFailure = .success ↔ 0 ≤ x ∧ x ≤ 100
      constructor
      · intro hfal
        exact absurd hfal (by decide)
      · intro h2
        exact absurd h2 hx
  · by_cases hx : 0 ≤ x
    · unfold updatePipeline
      rw [parse_update_budgetOnly, if_pos hx]
      show (update_movie today s mid { budget := some (some x) }).1 = .success ↔
        0 ≤ x
      rw [@update_movie_eq_success today s mid { budget := some (some x) } rfl hmem
        (routeChecks_budgetOnly today hx)]
      exact ⟨fun _ => hx, fun _ => rfl⟩
    · unfold updatePipeline
      rw [parse_update_budgetOnly, if_neg hx]
      show UpdateOutcome.validationFailure = .success ↔ 0 ≤ x
      constructor
      · intro hfal
        exact absurd hfal (by decide)
      · intro h2
        exact absurd h2 hx
  · by_cases hx : 0 ≤ x
    · unfold updatePipeline
      rw [parse_update_revenueOnly, if_pos hx]
      show (update_movie today s mid { revenue := some (some x) }).1 = .success ↔
        0 ≤ x
      rw [@update_movie_eq_success today s mid { revenue := some (some x) } rfl hmem
        (routeChecks_revenueOnly today hx)]
      exact ⟨fun _ => hx, fun _ => rfl⟩
    · unfold updatePipeline
      rw [parse_update_revenueOnly, if_neg hx]
      show UpdateOutcome.validationFailure = .success ↔ 0 ≤ x
      constructor
      · intro hfal
        exact absurd hfal (by decide)
      · intro h2
        exact absurd h2 hx

/-- C6, witness at concrete inputs: a payload with boundary score 100 and
zero budget and revenue, and patches carrying the boundary value 0. -/
theorem C6_numeric_bounds_witness :
    ((createPipeline 0 demoStore
        { basePayload "C" 1 with score := 100 }).1.isCreated = true ↔
          0 ≤ ({ basePayload "C" 1 with score := 100 } :
            MovieCreatePayload).score ∧
          ({ basePayload "C" 1 with score := 100 } :
            MovieCreatePayload).score ≤ 100 ∧
          0 ≤ ({ basePayload "C" 1 with score := 100 } :
            MovieCreatePayload).budget ∧
          0 ≤ ({ basePayload "C" 1 with score := 100 } :
            MovieCreatePayload).revenue) ∧
      ((updatePipeline 0 demoStore 1 { score := some (some 0) }).1 = .success ↔
        (0 : ℚ) ≤ 0 ∧ (0 : ℚ) ≤ 100) ∧
      ((updatePipeline 0 demoStore 1 { budget := some (some 0) }).1 = .success ↔
        (0 : ℚ) ≤ 0) ∧
      ((updatePipeline 0 demoStore 1 { revenue := some (some 0) }).1 = .success ↔
        (0 : ℚ) ≤ 0) :=
  C6_numeric_bounds 0 demoStore { basePayload "C" 1 with score := 100 } 1 0
    (by decide) (by decide) (by decide) (by decide) (by decide) (by decide)
    (by decide)

/-- C7 (confirmed): for every list request with page at least 1 and per_page
in [1, 20], the not-found outcome occurs exactly when the store is empty or
the page exceeds the total page count, which equals the ceiling of total
items over per_page; on success the response carries that total page count
and the total item count, next_page is present exactly when page < total
pages and prev_page exactly when page > 1. -/
theorem C7_pagination (s : Store) (page per_page : Nat)
    (hp : 1 ≤ page) (hpp1 : 1 ≤ per_page) (hpp2 : per_page ≤ 20) :
    (get_movies s page per_page = none ↔
      s.movies.length = 0 ∨ s.movies.length ⌈/⌉ per_page < page) ∧
    ∀ r, get_movies s page per_page = some r →
      r.total_pages = s.movies.length ⌈/⌉ per_page ∧
      r.total_items = s.movies.length ∧
      (r.next_page.isSome = true ↔ page < s.movies.length ⌈/⌉ per_page) ∧
      (r.prev_page.isSome = true ↔ 1 < page) := by
  have hceil : s.movies.length ⌈/⌉ per_page =
      (s.movies.length + per_page - 1) / per_page :=
    Nat.ceilDiv_eq_add_pred_div _ _
  constructor
  · unfold get_movies
    rw [hceil]
    split
    · rename_i hcond
      exact ⟨fun _ => hcond, fun _ => rfl⟩
    · rename_i hcond
      constructor
      · intro hfal
        exact absurd hfal (by simp)
      · intro hcond2
        exact absurd hcond2 hcond
  · intro r hr
    unfold get_movies at hr
    split at hr
    · cases hr
    · rename_i hcond
      simp only [Option.some.injEq] at hr
      subst hr
      refine ⟨hceil.symm, rfl, ?_, ?_⟩
      · rw [hceil]
        show (if page < (s.movies.length + per_page - 1) / per_page then
            some s!"/theater/movies/?page={page + 1}&per_page={per_page}"
          else none).isSome = true ↔
            page < (s.movies.length + per_page - 1) / per_page
        split
        · rename_i hh
          simpa using hh
        · rename_i hh
          simpa using hh
      · show (if 1 < page then
            some s!"/theater/movies/?page={page - 1}&per_page={per_page}"
          else none).isSome = true ↔ 1 < page
        split
        · rename_i hh
          simpa using hh
        · rename_i hh
          simpa using hh

/-- C7, witness at concrete inputs: 25 movies, per_page 10, page 3, as in the
spec's pagination example. -/
theorem C7_pagination_witness :
    (get_movies store25 3 10 = none ↔
        store25.movies.length = 0 ∨ store25.movies.length ⌈/⌉ 10 < 3) ∧
      ∀ r, get_movies store25 3 10 = some r →
        r.total_pages = store25.movies.length ⌈/⌉ 10 ∧
        r.total_items = store25.movies.length ∧
        (r.next_page.isSome = true ↔ 3 < store25.movies.length ⌈/⌉ 10) ∧
        (r.prev_page.isSome = true ↔ 1 < 3) :=
  C7_pagination store25 3 10 (by decide) (by decide) (by decide)

/-- C8 (confirmed): a successful partial update rewrites exactly the targeted
movie by applying the patch, leaves every other movie and every other table
unchanged, and applying a patch overwrites exactly the fields the patch
provides, never the id, country or association columns. -/
theorem C8_partial_update_frame (today : Int) (s : Store) (mid : Nat)
    (u : MovieUpdateData) (s2 : Store)
    (h : update_movie today s mid u = (.success, s2)) :
    s2.movies = s.movies.map
        (fun m => if m.id = mid then applyPatch u m else m) ∧
      s2.countries = s.countries ∧ s2.genres = s.genres ∧
      s2.actors = s.actors ∧ s2.languages = s.languages ∧
      (∀ m ∈ s.movies, m.id ≠ mid → m ∈ s2.movies) ∧
      PatchOnlySetsGivenFields u := by
  have hs2 := update_movie_success_inv h
  subst hs2
  refine ⟨rfl, rfl, rfl, rfl, rfl, ?_, ?_⟩
  · intro m hm hne
    have hfix : (if m.id = mid then applyPatch u m else m) = m := if_neg hne
    exact hfix ▸ List.mem_map_of_mem _ hm
  · intro m
    refine ⟨fun hx => ?_, fun x hx => ?_, fun hx => ?_, fun x hx => ?_,
      fun hx => ?_, fun x hx => ?_, fun hx => ?_, fun x hx => ?_,
      fun hx => ?_, fun x hx => ?_, fun hx => ?_, fun x hx => ?_,
      fun hx => ?_, fun x hx => ?_, rfl, rfl, rfl, rfl, rfl⟩ <;>
      simp [applyPatch, hx]

/-- C8, witness at concrete inputs: patching movie 1 of demoStore with score
50 succeeds and the frame property holds there. -/
theorem C8_partial_update_frame_witness :
    update_movie 0 demoStore 1 scorePatch = (.success, scorePatchedStore) ∧
      (scorePatchedStore.movies = demoStore.movies.map
          (fun m => if m.id = 1 then applyPatch scorePatch m else m) ∧
        scorePatchedStore.countries = demoStore.countries ∧
        scorePatchedStore.genres = demoStore.genres ∧
        scorePatchedStore.actors = demoStore.actors ∧
        scorePatchedStore.languages = demoStore.languages ∧
        (∀ m ∈ demoStore.movies, m.id ≠ 1 → m ∈ scorePatchedStore.movies) ∧
        PatchOnlySetsGivenFields scorePatch) :=
  ⟨by decide,
    C8_partial_update_frame 0 demoStore 1 scorePatch scorePatchedStore
      (by decide)⟩

/-- C9 (confirmed): two creates whose payloads both carry a genre name absent
from the store leave exactly one genre row with that name, associated with
both created movies; the statement is symmetric in the two payloads, so the
result holds regardless of call order. -/
theorem C9_genre_resolution_idempotent (today : Int) (s : Store)
    (p1 p2 : MovieCreatePayload) (m1 m2 : MovieModel) (s1 s2 : Store)
    (nm : String)
    (hwf : MoviesWF s)
    (g1 : nm ∈ p1.genres) (g2 : nm ∈ p2.genres)
    (h0 : countName s.genres nm = 0)
    (hc1 : createPipeline today s p1 = (.created m1, s1))
    (hc2 : createPipeline today s1 p2 = (.created m2, s2)) :
    ∃ g : NamedRow, s2.genres.filter (fun r => r.name == nm) = [g] ∧
      g.id ∈ m1.genre_ids ∧ g.id ∈ m2.genre_ids := by
  unfold createPipeline at hc1 hc2
  cases hp1 : MovieCreateSchema.parse today p1 with
  | none =>
    rw [hp1] at hc1
    simp at hc1
  | some v1 =>
    rw [hp1] at hc1
    cases hp2 : MovieCreateSchema.parse today p2 with
    | none =>
      rw [hp2] at hc2
      simp at hc2
    | some v2 =>
      rw [hp2] at hc2
      obtain ⟨hdup1, hm1, hs1⟩ := create_movie_created_inv hwf hc1
      have hwf1 : MoviesWF s1 := by
        rw [hs1]
        exact wf_create_insert v1 hwf
      obtain ⟨hdup2, hm2, hs2⟩ := create_movie_created_inv hwf1 hc2
      obtain ⟨f1n, f1d, f1g⟩ := parse_create_fields hp1
      obtain ⟨f2n, f2d, f2g⟩ := parse_create_fields hp2
      have hg1 : nm ∈ v1.genres := by rw [f1g]; exact g1
      have hg2 : nm ∈ v2.genres := by rw [f2g]; exact g2
      have hs1g : s1.genres =
          (resolveAll s.genres s.next_genre_id v1.genres).2.1 := by
        rw [hs1]; rfl
      have hm1g : m1.genre_ids =
          (resolveAll s.genres s.next_genre_id v1.genres).1.map
            (fun r => r.id) := by
        rw [hm1]; rfl
      obtain ⟨r1, hr1res, hr1name, hr1rows⟩ :=
        resolveAll_finds v1.genres s.genres s.next_genre_id hg1
      have hcount1 : countName s1.genres nm = 1 := by
        rw [hs1g, countName_resolveAll, h0]
        simp [hg1]
      have hs2g : s2.genres =
          (resolveAll s1.genres s1.next_genre_id v2.genres).2.1 := by
        rw [hs2]; rfl
      have hm2g : m2.genre_ids =
          (resolveAll s1.genres s1.next_genre_id v2.genres).1.map
            (fun r => r.id) := by
        rw [hm2]; rfl
      obtain ⟨r2, hr2res, hr2name, hr2rows⟩ :=
        resolveAll_finds v2.genres s1.genres s1.next_genre_id hg2
      have hcount2 : countName s2.genres nm = 1 := by
        rw [hs2g, countName_resolveAll, hcount1]
        simp
      have hr1s1 : r1 ∈ s1.genres := by
        rw [hs1g]
        exact hr1rows
      have hr2s2 : r2 ∈ s2.genres := by
        rw [hs2g]
        exact hr2rows
      have hr1s2 : r1 ∈ s2.genres := by
        rw [hs2g]
        exact mem_resolveAll v2.genres s1.genres s1.next_genre_id hr1s1
      obtain ⟨hfilter, hr21⟩ :=
        filter_singleton_of_count_one hcount2 hr1s2 hr1name hr2s2 hr2name
      refine ⟨r1, hfilter, ?_, ?_⟩
      · rw [hm1g]
        exact List.mem_map_of_mem _ hr1res
      · rw [hm2g, ← hr21]
        exact List.mem_map_of_mem _ hr2res

/-- C9, witness at concrete inputs: two creates both introducing the genre
"Noir" into an empty store. -/
theorem C9_genre_resolution_idempotent_witness :
    createPipeline 0 {} noirPayload1 =
        (.created (movieOf noirRun1.1), noirRun1.2) ∧
      createPipeline 0 noirRun1.2 noirPayload2 =
        (.created (movieOf noirRun2.1), noirRun2.2) ∧
      ∃ g : NamedRow, noirRun2.2.genres.filter (fun r => r.name == "Noir") = [g] ∧
        g.id ∈ (movieOf noirRun1.1).genre_ids ∧
        g.id ∈ (movieOf noirRun2.1).genre_ids :=
  ⟨by decide, by decide,
    C9_genre_resolution_idempotent 0 {} noirPayload1 noirPayload2
      (movieOf noirRun1.1) (movieOf noirRun2.1) noirRun1.2 noirRun2.2 "Noir"
      (by decide) (by decide) (by decide) (by decide) (by decide) (by decide)⟩

/-- C10, counterexample: the patch whose only provided field is an explicit
null status parses under the update schema and is a non-empty dump, yet the
route's status re-validation branch fires (None is not among the allowed
status values), so the branches are not unreachable for parsed bodies. -/
theorem C10_counterexample :
    MovieUpdateSchema.parse 0 nullStatusPatch =
        some ({ status := some none } : MovieUpdateData) ∧
      MovieUpdateData.isEmpty { status := some none } = false ∧
      routeChecks 0 { status := some none } = some .invalidInput ∧
      (demoStore.movies.find? (fun m => m.id == 1)).isSome = true ∧
      updatePipeline 0 demoStore 1 nullStatusPatch =
        (.invalidInput, demoStore) :=
  ⟨by decide, by decide, by decide, by decide, by decide⟩

/-- C10 (amended): for update bodies that parse under the update schema and
in which no provided field is an explicit null, none of the six route-level
re-validation branches fires; an explicit null status parses yet fires the
status branch, and explicit nulls in score, budget, revenue, date or name
make the route's comparisons raise a type error instead. -/
theorem C10_route_checks_redundant (today : Int) (p : MovieUpdatePayload)
    (u : MovieUpdateData) (h : MovieUpdateSchema.parse today p = some u)
    (hn : u.name ≠ some none) (hd : u.date ≠ some none)
    (hs : u.score ≠ some none) (hst : u.status ≠ some none)
    (hb : u.budget ≠ some none) (hr : u.revenue ≠ some none) :
    routeChecks today u = none :=
  routeChecks_none_of_parsed h hn hd hs hst hb hr

/-- C10, witness at a concrete parsed patch with no explicit nulls. -/
theorem C10_route_checks_redundant_witness :
    MovieUpdateSchema.parse 0 halfScorePatchRaw = some scorePatch ∧
      routeChecks 0 scorePatch = none :=
  ⟨by decide,
    C10_route_checks_redundant 0 halfScorePatchRaw scorePatch (by decide)
      (by decide) (by decide) (by decide) (by decide) (by decide) (by decide)⟩

end MovieCatalog
